import Mathlib

/-!
Verification of `scripts/create_filtered_ifg_stack.py` (filtered single-scene
interferogram stack generator).

The development shallowly embeds the orchestration logic of `main`:

* numeric scalars that `main` only ever formats into strings (thresholds,
  pixel sizes, coordinates, incidence angle) are modelled by their textual
  representation, since the script never does arithmetic on them — it only
  interpolates them into hash payloads and passes them opaquely to the
  external filtering collaborator;
* external collaborators (`filter_ifgs`, `get_envelope`, `dataset_exists`,
  the four staged subprocesses, `h5py`, the filesystem globs, `pigz` exit
  statuses) are modelled as an explicit environment `Env`;
* the run itself is a pure function `run : Input → Env → RunResult`
  producing the ordered trace of side effects together with the outcome;
* `hashlib.md5` is implemented concretely (`md5hex`) over byte lists so
  identity strings evaluate on concrete inputs.

Python set iteration order (used for the `platform` set at lines 153-161 of
the source) is modelled by an environment function `Env.setOrder` that may
return any permutation of the collected set contents, reflecting CPython's
hash-seed-dependent set enumeration across process restarts.
-/

namespace IfgStack

/-! ## MD5 over byte lists, embedded from `hashlib.md5` semantics -/

/-- 2^32, the word modulus of MD5. -/
def M32 : Nat := 4294967296

/-- Left-rotation of a 32-bit word held in a `Nat`. -/
def rotl32 (x s : Nat) : Nat := ((x <<< s) ||| (x >>> (32 - s))) % M32

/-- MD5 round function F (rounds 0-15). -/
def mixF (b c d : Nat) : Nat := (b &&& c) ||| ((b ^^^ 4294967295) &&& d)

/-- MD5 round function G (rounds 16-31). -/
def mixG (b c d : Nat) : Nat := (d &&& b) ||| ((d ^^^ 4294967295) &&& c)

/-- MD5 round function H (rounds 32-47). -/
def mixH (b c d : Nat) : Nat := b ^^^ c ^^^ d

/-- MD5 round function I (rounds 48-63). -/
def mixI (b c d : Nat) : Nat := c ^^^ (b ||| (d ^^^ 4294967295))

/-- The 64 MD5 additive constants, `floor(2^32 * abs(sin(i+1)))`. -/
def md5K : List Nat :=
  [3614090360, 3905402710, 606105819, 3250441966, 4118548399, 1200080426,
   2821735955, 4249261313, 1770035416, 2336552879, 4294925233, 2304563134,
   1804603682, 4254626195, 2792965006, 1236535329, 4129170786, 3225465664,
   643717713, 3921069994, 3593408605, 38016083, 3634488961, 3889429448,
   568446438, 3275163606, 4107603335, 1163531501, 2850285829, 4243563512,
   1735328473, 2368359562, 4294588738, 2272392833, 1839030562, 4259657740,
   2763975236, 1272893353, 4139469664, 3200236656, 681279174, 3936430074,
   3572445317, 76029189, 3654602809, 3873151461, 530742520, 3299628645,
   4096336452, 1126891415, 2878612391, 4237533241, 1700485571, 2399980690,
   4293915773, 2240044497, 1873313359, 4264355552, 2734768916, 1309151649,
   4149444226, 3174756917, 718787259, 3951481745]

/-- The 64 MD5 per-round left-rotation amounts. -/
def md5S : List Nat :=
  [7, 12, 17, 22, 7, 12, 17, 22, 7, 12, 17, 22, 7, 12, 17, 22,
   5, 9, 14, 20, 5, 9, 14, 20, 5, 9, 14, 20, 5, 9, 14, 20,
   4, 11, 16, 23, 4, 11, 16, 23, 4, 11, 16, 23, 4, 11, 16, 23,
   6, 10, 15, 21, 6, 10, 15, 21, 6, 10, 15, 21, 6, 10, 15, 21]

/-- One MD5 round: given the message-word accessor and the running
`(a, b, c, d)` state, perform round `i`. -/
def md5Round (w : Nat → Nat) (st : Nat × Nat × Nat × Nat) (i : Nat) :
    Nat × Nat × Nat × Nat :=
  let (a, b, c, d) := st
  let fg : Nat × Nat :=
    if i < 16 then (mixF b c d, i)
    else if i < 32 then (mixG b c d, (5 * i + 1) % 16)
    else if i < 48 then (mixH b c d, (3 * i + 5) % 16)
    else (mixI b c d, (7 * i) % 16)
  let f := (fg.1 + a + md5K.getD i 0 + w fg.2) % M32
  (d, (b + rotl32 f (md5S.getD i 0)) % M32, b, c)

/-- Little-endian 32-bit word `j` of a 64-byte block. -/
def leWord (blk : List Nat) (j : Nat) : Nat :=
  blk.getD (4 * j) 0 + 256 * blk.getD (4 * j + 1) 0 +
    65536 * blk.getD (4 * j + 2) 0 + 16777216 * blk.getD (4 * j + 3) 0

/-- MD5 padding: append `0x80`, zero bytes to 56 mod 64, then the bit length
as 8 little-endian bytes. -/
def md5Pad (msg : List Nat) : List Nat :=
  let len := msg.length
  let zeros := (120 - ((len + 1) % 64)) % 64
  msg ++ [128] ++ List.replicate zeros 0 ++
    (List.range 8).map (fun i => ((8 * len) >>> (8 * i)) % 256)

/-- Split a byte list into 64-byte blocks, with a structural fuel bound
(`fuel ≥` the number of blocks, which `chunks64` guarantees). -/
def chunks64Aux : Nat → List Nat → List (List Nat)
  | 0, _ => []
  | _ + 1, [] => []
  | fuel + 1, l => l.take 64 :: chunks64Aux fuel (l.drop 64)

/-- Split a byte list into 64-byte blocks. -/
def chunks64 (l : List Nat) : List (List Nat) :=
  chunks64Aux (l.length + 1) l

/-- Run the MD5 compression over all blocks from the standard IV. -/
def md5Main (blocks : List (List Nat)) : Nat × Nat × Nat × Nat :=
  blocks.foldl
    (fun st blk =>
      let (a0, b0, c0, d0) := st
      let r := (List.range 64).foldl (md5Round (leWord blk)) (a0, b0, c0, d0)
      ((a0 + r.1) % M32, (b0 + r.2.1) % M32, (c0 + r.2.2.1) % M32,
       (d0 + r.2.2.2) % M32))
    (1732584193, 4023233417, 2562383102, 271733878)

/-- Lower-case hex digit. -/
def hexDigit (n : Nat) : Char :=
  if n < 10 then Char.ofNat (48 + n) else Char.ofNat (87 + n)

/-- Two-digit lower-case hex of a byte. -/
def byteHex (b : Nat) : String :=
  String.mk [hexDigit (b / 16), hexDigit (b % 16)]

/-- A 32-bit word rendered as hex in little-endian byte order, as MD5 emits. -/
def wordLEHex (w : Nat) : String :=
  byteHex (w % 256) ++ byteHex ((w >>> 8) % 256) ++
    byteHex ((w >>> 16) % 256) ++ byteHex ((w >>> 24) % 256)

/-- `hashlib.md5(msg).hexdigest()` over a byte list. -/
def md5hex (msg : List Nat) : String :=
  let r := md5Main (chunks64 (md5Pad msg))
  wordLEHex r.1 ++ wordLEHex r.2.1 ++ wordLEHex r.2.2.1 ++ wordLEHex r.2.2.2

/-- UTF-8 encoding of one character, as `str.encode` produces. -/
def utf8Char (c : Char) : List Nat :=
  let n := c.toNat
  if n < 128 then [n]
  else if n < 2048 then [192 ||| (n >>> 6), 128 ||| (n &&& 63)]
  else if n < 65536 then
    [224 ||| (n >>> 12), 128 ||| ((n >>> 6) &&& 63), 128 ||| (n &&& 63)]
  else
    [240 ||| (n >>> 18), 128 ||| ((n >>> 12) &&& 63),
     128 ||| ((n >>> 6) &&& 63), 128 ||| (n &&& 63)]

/-- UTF-8 encoding of a string (`s.encode('utf-8')`). -/
def utf8Bytes (s : String) : List Nat :=
  s.data.foldr (fun c acc => utf8Char c ++ acc) []

/-! ## Data model -/

/-- A center-line acquisition time (`datetime` with second precision); the
chronological order of valid datetimes is the order of `key`. -/
structure DT where
  year : Nat
  month : Nat
  day : Nat
  hour : Nat
  minute : Nat
  second : Nat
deriving DecidableEq, Repr

/-- Numeric encoding of a datetime; on calendar-valid field values it is
order-isomorphic to chronological order. -/
def DT.key (t : DT) : Nat :=
  ((((t.year * 100 + t.month) * 100 + t.day) * 100 + t.hour) * 100 +
    t.minute) * 100 + t.second

/-- Zero-pad to two digits. -/
def pad2 (n : Nat) : String := if n < 10 then "0" ++ toString n else toString n

/-- Zero-pad to four digits. -/
def pad4 (n : Nat) : String :=
  if n < 10 then "000" ++ toString n
  else if n < 100 then "00" ++ toString n
  else if n < 1000 then "0" ++ toString n
  else toString n

/-- `dt.strftime('%Y%m%dT%H%M%S')` of source lines 190-191. -/
def DT.strftimeCompact (t : DT) : String :=
  pad4 t.year ++ pad2 t.month ++ pad2 t.day ++ "T" ++ pad2 t.hour ++
    pad2 t.minute ++ pad2 t.second

/-- One filtered interferogram record (the fields of `ifg_info[key]` that the
orchestrator reads; the purely-templated fields rendered into `ifg.list`,
`example.rsc` and the two prep scripts are not needed by any claim and are
abstracted into the corresponding write events). A scalar `platform` is
normalized by the source (line 159) to a singleton list, so `platform` is
`Option (List String)`. -/
structure IfgRecord where
  product : String
  sensor : String
  sensor_name : String
  platform : Option (List String)
deriving DecidableEq, Repr

/-- `filt_info`, the external filter collaborator's output (`FilteredResult`):
center-line acquisition times plus the date-pair-keyed record mapping,
modelled as an association list with distinct keys, in dict insertion order.
The unused-downstream `ifg_coverage` entry is omitted. -/
structure FiltInfo where
  center_lines_utc : List DT
  ifg_info : List (String × IfgRecord)
deriving DecidableEq, Repr

/-- The `subswath` request field before normalization: a scalar or a list
(source lines 111-115). -/
inductive SubswathVal where
  | one (n : Int)
  | many (ns : List Int)
deriving DecidableEq, Repr

/-- `subswath` normalized to a list of integers, as lines 111-115 do. -/
def subswathList : SubswathVal → List Int
  | .one n => [n]
  | .many ns => ns

/-- Python `"{}".format` of a boolean. -/
def pyBool (b : Bool) : String := if b then "True" else "False"

/-- The validated request descriptor (`input_json`, `StackRequest`). Numeric
scalars that `main` only formats into strings are modelled by their textual
representation. `region_of_interest` is `[min_lat, max_lat, min_lon, max_lon]`
when non-empty (source line 79). -/
structure Input where
  project : String
  products : List String
  region_of_interest : Option (String × String × String × String)
  ref_point : String × String
  ref_box_num_pixels : Int × Int
  coverage_threshold : String
  coherence_threshold : String
  range_pixel_size : String
  azimuth_pixel_size : String
  inc : String
  filt : String
  netramp : Bool
  gpsramp : Bool
  subswath : SubswathVal
deriving DecidableEq, Repr

/-- The environment of external collaborators: `get_envelope` (returns
`(min_lon, max_lon, min_lat, max_lat)`), the filter result, CPython's
hash-seed-dependent set enumeration (`setOrder`, always a permutation of the
collected contents), the catalog existence query, the four stage exit
statuses, the `glob` results, `pigz` exit statuses, and the `dates` array
read from `Stack/PROC-STACK.h5`. -/
structure Env where
  envelope : List String → String × String × String × String
  filt_info : FiltInfo
  setOrder : List String → List String
  setOrder_perm : ∀ l, (setOrder l).Perm l
  dataset_exists : String → Bool
  stage : Nat → Nat
  prod_files : List String
  pigz : String → Nat
  png_files : List String
  times : List Nat

/-- Fatal termination causes of `main`. -/
inductive ErrKind where
  | allFilteredOut
  | keyError
  | attributeError
  | indexError
  | stageFailure (i : Nat) (status : Nat)
  | pigzFailure (file : String) (status : Nat)
deriving DecidableEq, Repr

/-- How the process ends: normal fall-through success (exit 0 at line 331),
the explicit `sys.exit(0)` of the idempotency gate (line 198), or an
uncaught exception (nonzero exit after the `_alt_*` diagnostics). -/
inductive Outcome where
  | success
  | exited0
  | error (e : ErrKind)
deriving DecidableEq, Repr

/-- The catalog metadata record (`met`, source lines 277-300); bbox points
are `(lat, lon)` pairs. -/
structure Met where
  bbox : List (String × String)
  dataset_type : String
  product_type : String
  reference : Bool
  sensing_time_initial : String
  sensing_time_final : String
  sensor : String
  platform : List String
  spacecraftName : List String
  tags : List String
  trackNumber : Nat
  swath : List Int
  ifg_count : Nat
  ifgs : List String
  timestep_count : Nat
  timesteps : List String
deriving DecidableEq, Repr

/-- Modelled from the spec: `write_dataset_json` (from
`giant_time_series.utils`, not under `src/`) writes the minimal dataset
descriptor carrying exactly the arguments passed at source line 313 — the
identity, the GeoJSON bbox whose points are `(lon, lat)` pairs, the first and
last timesteps, and the dataset version tag. -/
structure DS where
  id : String
  bbox : List (String × String)
  starttime : String
  endtime : String
  version : String
deriving DecidableEq, Repr

/-- Observable side effects of a run, in program order. -/
inductive Event where
  | writeFile (name : String)
  | copyFile (dst : String)
  | stageCall (i : Nat)
  | makeDir (name : String)
  | moveFile (src : String) (dst : String)
  | compress (path : String)
  | convertCall
  | removeTree (path : String)
  | unlink (path : String)
  | writeMet (name : String) (m : Met)
  | writeDatasetJson (d : DS)
deriving DecidableEq, Repr

/-- The values derived on the way to the product identity (source lines
140-193). -/
structure IdParts where
  track : Nat
  sensor : String
  sensor_name : String
  platform : List String
  ifg_list : List String
  startdt : DT
  enddt : DT
  hash : String
  id : String
deriving DecidableEq, Repr

/-- Result of a run: the effect trace, the outcome, the derived identity
parts (when derivation got that far), and the metadata payloads written. -/
structure RunResult where
  events : List Event
  outcome : Outcome
  parts : Option IdParts
  met : Option Met
  ds : Option DS
deriving DecidableEq, Repr

/-! ## Embedded operations -/

/-- The dataset schema version (`DATASET_VERSION`, source line 38). -/
def DATASET_VERSION : String := "v0.1"

/-- Lexicographic less-or-equal on code points, embedding Python string
comparison (which `sorted` uses). -/
def charListLe : List Char → List Char → Bool
  | [], _ => true
  | _ :: _, [] => false
  | a :: as, b :: bs =>
    if a.toNat < b.toNat then true
    else if b.toNat < a.toNat then false
    else charListLe as bs

/-- Python `<=` on strings, by code points. -/
def strLe (a b : String) : Prop := charListLe a.data b.data = true

instance : DecidableRel strLe :=
  fun a b => inferInstanceAs (Decidable (charListLe a.data b.data = true))

/-- Match `TN_RE = _TN(\d+)_` at the head of a character list: literal
`_TN`, one or more digits, then `_`; return the digits as a number. -/
def tnAt (l : List Char) : Option Nat :=
  match l with
  | '_' :: 'T' :: 'N' :: rest =>
    let ds := rest.takeWhile Char.isDigit
    let rest2 := rest.dropWhile Char.isDigit
    if ds.isEmpty then none
    else
      match rest2 with
      | '_' :: _ => some (ds.foldl (fun a c => a * 10 + (c.toNat - 48)) 0)
      | _ => none
  | _ => none

/-- Leftmost-match scan for `TN_RE`, as `re.search` performs. -/
def tnSearchAux : List Char → Option Nat
  | [] => none
  | c :: rest =>
    match tnAt (c :: rest) with
    | some n => some n
    | none => tnSearchAux rest

/-- `int(TN_RE.search(name).group(1))` of source line 144, `none` when the
pattern does not occur (the `AttributeError` case). -/
def tnSearch (s : String) : Option Nat := tnSearchAux s.data

/-- The spatial envelope as `(min_lat, max_lat, min_lon, max_lon)`: the
region of interest when supplied (truthy), otherwise the reordered result of
the external `get_envelope` (source lines 77-83). -/
def envelopeOf (inp : Input) (env : Env) : String × String × String × String :=
  match inp.region_of_interest with
  | some r => r
  | none =>
    let e := env.envelope inp.products
    (e.2.2.1, e.2.2.2, e.1, e.2.1)

/-- The contents of the Python `platform` set in insertion order while
iterating the sorted date-pair keys (source lines 153-161); the actual
enumeration order handed to `list(...)` is `Env.setOrder` of this. -/
def platContents (info : List (String × IfgRecord)) (keys : List String) :
    List String :=
  keys.foldl
    (fun acc k =>
      match List.lookup k info with
      | some r =>
        match r.platform with
        | some ps =>
          ps.foldl (fun a x => if a.contains x then a else a ++ [x]) acc
        | none => acc
      | none => acc)
    []

/-- The concatenation fed to `hashlib.md5` by the fourteen `m.update` calls
of source lines 171-184, in source order. -/
def hashPayload (inp : Input) (env : Env) (track : Nat) (sensor : String)
    (platformL ifgList : List String) : String :=
  let e := envelopeOf inp env
  e.2.2.1 ++ " " ++ e.2.2.2 ++ " " ++ e.1 ++ " " ++ e.2.1 ++
    (inp.ref_point.1 ++ " " ++ inp.ref_point.2) ++
    (toString inp.ref_box_num_pixels.1 ++ " " ++
      toString inp.ref_box_num_pixels.2) ++
    inp.coherence_threshold ++
    inp.range_pixel_size ++
    inp.azimuth_pixel_size ++
    inp.inc ++
    pyBool inp.netramp ++
    pyBool inp.gpsramp ++
    inp.filt ++
    toString track ++
    sensor ++
    String.intercalate " " platformL ++
    String.intercalate " " ifgList

/-- The first `n` characters of a string, as a Python `[0:n]` slice. -/
def takeChars (s : String) (n : Nat) : String := String.mk (s.data.take n)

/-- `roi_ref_hash`: first five hex characters of the MD5 digest of the
parameter concatenation (source line 185). -/
def roiRefHash (inp : Input) (env : Env) (track : Nat) (sensor : String)
    (platformL ifgList : List String) : String :=
  takeChars (md5hex (utf8Bytes (hashPayload inp env track sensor platformL ifgList))) 5

/-- Derivation of the product identity (source lines 127-193): the
empty-filter check, sorted date-pair keys, track extraction from the first
record's product name, platform set collection, parameter hash, sorted
center-line times, and the `ID_TMPL` rendering. Error precedence follows
the source order. -/
def deriveParts (inp : Input) (env : Env) : Except ErrKind IdParts :=
  let fi := env.filt_info
  if fi.ifg_info.isEmpty then .error .allFilteredOut
  else
    let ifgList := List.insertionSort strLe
      (fi.ifg_info.map Prod.fst)
    match List.lookup (ifgList.headD "") fi.ifg_info with
    | none => .error .keyError
    | some r0 =>
      match tnSearch r0.product with
      | none => .error .attributeError
      | some track =>
        let platformL := env.setOrder (platContents fi.ifg_info ifgList)
        let hsh := roiRefHash inp env track r0.sensor platformL ifgList
        match List.insertionSort (fun a b : DT => a.key ≤ b.key)
          fi.center_lines_utc with
        | [] => .error .indexError
        | c0 :: cs =>
          let cN := (c0 :: cs).getLast (List.cons_ne_nil c0 cs)
          .ok
            { track := track, sensor := r0.sensor,
              sensor_name := r0.sensor_name, platform := platformL,
              ifg_list := ifgList, startdt := c0, enddt := cN, hash := hsh,
              id := "filtered-ifg-stack_" ++ r0.sensor ++ "-TN" ++
                toString track ++ "-" ++ c0.strftimeCompact ++ "Z-" ++
                cN.strftimeCompact ++ "Z-" ++ hsh ++ "-" ++ DATASET_VERSION }

/-- `datetime.fromordinal(n).isoformat('T')`: proleptic-Gregorian civil date
from the day ordinal (day 1 = 0001-01-01), midnight time. -/
def isoOfOrdinal (ordinal : Nat) : String :=
  let z := ordinal + 305
  let era := z / 146097
  let doe := z % 146097
  let yoe := (doe - doe / 1460 + doe / 36524 - doe / 146096) / 365
  let doy := doe - (365 * yoe + yoe / 4 - yoe / 100)
  let mp := (5 * doy + 2) / 153
  let d := doy - (153 * mp + 2) / 5 + 1
  let m := if mp < 10 then mp + 3 else mp - 9
  let y := yoe + era * 400 + (if m ≤ 2 then 1 else 0)
  pad4 y ++ "-" ++ pad2 m ++ "-" ++ pad2 d ++ "T00:00:00"

/-- The per-run auxiliary files rendered before the pipeline (source lines
200-221): `ifg.list`, and on the first record `example.rsc`,
`prepdataxml.py`, `prepsbasxml.py`, plus the `userfn.py` copy. -/
def auxWriteEvents : List Event :=
  [.writeFile "ifg.list", .writeFile "example.rsc",
   .writeFile "prepdataxml.py", .writeFile "prepsbasxml.py",
   .copyFile "userfn.py"]

/-- The move-and-compress loop over `glob("Stack/*")` (source lines 251-254):
each file is moved into the bundle directory and `pigz`-compressed via
`check_call`, whose nonzero exit aborts the run. Returns the emitted events
and the first failure, if any. -/
def moveCompress (pigz : String → Nat) (dir : String) :
    List String → List Event × Option ErrKind
  | [] => ([], none)
  | f :: rest =>
    let ev := [Event.moveFile f dir, Event.compress f]
    if pigz f = 0 then
      let r := moveCompress pigz dir rest
      (ev ++ r.1, r.2)
    else (ev, some (.pigzFailure f (pigz f)))

/-- The catalog metadata record built at source lines 277-300. -/
def metOf (inp : Input) (env : Env) (P : IdParts) (timesteps : List String)
    (t0 tN : String) : Met :=
  let e := envelopeOf inp env
  { bbox := [(e.2.1, e.2.2.2), (e.2.1, e.2.2.1), (e.1, e.2.2.1),
             (e.1, e.2.2.2), (e.2.1, e.2.2.2)]
  , dataset_type := "ifg-stack"
  , product_type := "ifg-stack"
  , reference := false
  , sensing_time_initial := t0
  , sensing_time_final := tN
  , sensor := P.sensor_name
  , platform := P.platform
  , spacecraftName := P.platform
  , tags := [inp.project]
  , trackNumber := P.track
  , swath := subswathList inp.subswath
  , ifg_count := env.filt_info.ifg_info.length
  , ifgs := (List.insertionSort strLe
      (env.filt_info.ifg_info.map Prod.fst)).filterMap
      (fun k => (List.lookup k env.filt_info.ifg_info).map IfgRecord.product)
  , timestep_count := timesteps.length
  , timesteps := timesteps }

/-- The dataset descriptor arguments passed to `write_dataset_json` at
source lines 305-313 (GeoJSON bbox points are `(lon, lat)`). -/
def dsOf (inp : Input) (env : Env) (P : IdParts) (t0 tN : String) : DS :=
  let e := envelopeOf inp env
  { id := P.id
  , bbox := [(e.2.2.2, e.2.1), (e.2.2.2, e.1), (e.2.2.1, e.1),
             (e.2.2.1, e.2.1), (e.2.2.2, e.2.1)]
  , starttime := t0
  , endtime := tN
  , version := DATASET_VERSION }

/-- Everything after the four stages succeed (source lines 239-317): read
the processed-stack time axis, create the bundle directory, move/compress
stage outputs, browse imagery, move provenance files, emit the two metadata
files, then delete the consumed inputs and symlinks. -/
def bundlePhase (inp : Input) (env : Env) (P : IdParts) (ev : List Event) :
    RunResult :=
  let timesteps := env.times.map isoOfOrdinal
  let dir := P.id
  let ev1 := ev ++ [Event.makeDir dir]
  let mc := moveCompress env.pigz dir env.prod_files
  let ev2 := ev1 ++ mc.1
  match mc.2 with
  | some e => ⟨ev2, .error e, some P, none, none⟩
  | none =>
    match env.png_files with
    | [] => ⟨ev2, .error .indexError, some P, none, none⟩
    | _ :: _ =>
      let ev3 := ev2 ++ [Event.copyFile "browse.png", Event.convertCall] ++
        env.png_files.map (fun p => Event.moveFile p dir) ++
        [Event.copyFile (P.id ++ ".context.json"),
         Event.moveFile "filt_info.pkl" dir,
         Event.moveFile "data.xml" dir,
         Event.moveFile "example.rsc" dir,
         Event.moveFile "ifg.list" dir,
         Event.moveFile "prepdataxml.py" dir,
         Event.moveFile "prepsbasxml.py" dir,
         Event.moveFile "sbas.xml" dir,
         Event.moveFile "userfn.py" dir]
      match timesteps with
      | [] => ⟨ev3, .error .indexError, some P, none, none⟩
      | t0 :: ts =>
        let tN := (t0 :: ts).getLast (List.cons_ne_nil t0 ts)
        let m := metOf inp env P (t0 :: ts) t0 tN
        let d := dsOf inp env P t0 tN
        let ev4 := ev3 ++ [Event.writeMet (P.id ++ ".met.json") m,
                           Event.writeDatasetJson d] ++
          inp.products.map Event.removeTree ++ P.ifg_list.map Event.unlink
        ⟨ev4, .success, some P, some m, some d⟩

/-- The fixed four-stage pipeline (source lines 223-237): `prepdataxml.py`,
`PrepIgramStackWrapper.py`, `prepsbasxml.py`, `ProcessStackWrapper.py`, each
a blocking `check_call` whose nonzero exit raises immediately. -/
def stagesPhase (inp : Input) (env : Env) (P : IdParts) (ev : List Event) :
    RunResult :=
  let e0 := ev ++ [Event.stageCall 0]
  if env.stage 0 = 0 then
    let e1 := e0 ++ [Event.stageCall 1]
    if env.stage 1 = 0 then
      let e2 := e1 ++ [Event.stageCall 2]
      if env.stage 2 = 0 then
        let e3 := e2 ++ [Event.stageCall 3]
        if env.stage 3 = 0 then bundlePhase inp env P e3
        else ⟨e3, .error (.stageFailure 3 (env.stage 3)), some P, none, none⟩
      else ⟨e2, .error (.stageFailure 2 (env.stage 2)), some P, none, none⟩
    else ⟨e1, .error (.stageFailure 1 (env.stage 1)), some P, none, none⟩
  else ⟨e0, .error (.stageFailure 0 (env.stage 0)), some P, none, none⟩

/-- The whole of `main` from the filter call on (source lines 117-317): dump
`filt_info.pkl`, derive the identity, consult the idempotency gate
(`dataset_exists`, `sys.exit(0)` when present), render the auxiliary files,
run the pipeline, assemble the bundle, and clean up. -/
def run (inp : Input) (env : Env) : RunResult :=
  let ev0 := [Event.writeFile "filt_info.pkl"]
  match deriveParts inp env with
  | .error e => ⟨ev0, .error e, none, none, none⟩
  | .ok P =>
    if env.dataset_exists P.id then ⟨ev0, .exited0, some P, none, none⟩
    else stagesPhase inp env P (ev0 ++ auxWriteEvents)

/-! ## Concrete fixtures used by witnesses and counterexamples -/

/-- A concrete request descriptor with an explicit region of interest. -/
def wInp : Input :=
  { project := "urgent-response"
  , products := ["S1-IFG_TN42_pairA-product", "S1-IFG_TN42_pairB-product"]
  , region_of_interest := some ("34.1", "35.2", "-118.9", "-117.5")
  , ref_point := ("34.5", "-118.2")
  , ref_box_num_pixels := (5, 5)
  , coverage_threshold := "0.8"
  , coherence_threshold := "0.3"
  , range_pixel_size := "2.329562"
  , azimuth_pixel_size := "13.9"
  , inc := "38.0"
  , filt := "0.25"
  , netramp := true
  , gpsramp := false
  , subswath := .many [1, 2] }

/-- First concrete filtered record (platform Sentinel-1A). -/
def wRecA : IfgRecord :=
  { product := "S1-IFG_TN42_pairA-product"
  , sensor := "S1"
  , sensor_name := "Sentinel-1"
  , platform := some ["Sentinel-1A"] }

/-- Second concrete filtered record (platform Sentinel-1B). -/
def wRecB : IfgRecord :=
  { product := "S1-IFG_TN42_pairB-product"
  , sensor := "S1"
  , sensor_name := "Sentinel-1"
  , platform := some ["Sentinel-1B"] }

/-- A concrete two-record filter result with unsorted center-line times. -/
def wFi : FiltInfo :=
  { center_lines_utc :=
      [⟨2020, 3, 1, 12, 0, 5⟩, ⟨2020, 1, 1, 0, 0, 0⟩, ⟨2020, 2, 15, 6, 30, 0⟩]
  , ifg_info :=
      [("20200215_20200401", wRecB), ("20200101_20200301", wRecA)] }

/-- A concrete environment where the filter passes two records, the catalog
does not contain the identity, and every external stage and compression
succeeds; `f` is the set-enumeration order. -/
def wEnvWith (f : List String → List String)
    (hf : ∀ l, (f l).Perm l) : Env :=
  { envelope := fun _ => ("-118.9", "-117.5", "34.1", "35.2")
  , filt_info := wFi
  , setOrder := f
  , setOrder_perm := hf
  , dataset_exists := fun _ => false
  , stage := fun _ => 0
  , prod_files := ["Stack/PROC-STACK.h5", "Stack/RAW-STACK.h5"]
  , pigz := fun _ => 0
  , png_files := ["Figs/Igrams/a.png", "Figs/Igrams/b.png"]
  , times := [737060, 737151] }

/-- The baseline successful-run environment (identity set enumeration). -/
def wEnv : Env := wEnvWith (fun l => l) (fun l => List.Perm.refl l)

/-- The same environment under the reversed set enumeration, as another
process restart may produce. -/
def wEnvRev : Env := wEnvWith List.reverse (fun l => List.reverse_perm l)

/-! ## Helper lemmas -/

/-- The subsequence of stage invocations in an event trace. -/
def stageTrace (es : List Event) : List Nat :=
  es.filterMap (fun e => match e with | .stageCall i => some i | _ => none)

theorem stageTrace_append (a b : List Event) :
    stageTrace (a ++ b) = stageTrace a ++ stageTrace b := by
  simp [stageTrace]

theorem moveCompress_mem (pz : String → Nat) (d : String) (fs : List String)
    (e : Event) (he : e ∈ (moveCompress pz d fs).1) :
    (∃ f, e = .moveFile f d) ∨ (∃ f, e = .compress f) := by
  induction fs with
  | nil => simp [moveCompress] at he
  | cons f rest ih =>
    simp only [moveCompress] at he
    split at he
    · simp at he
      rcases he with h | h | h
      · exact Or.inl ⟨f, h⟩
      · exact Or.inr ⟨f, h⟩
      · exact ih h
    · simp at he
      rcases he with h | h
      · exact Or.inl ⟨f, h⟩
      · exact Or.inr ⟨f, h⟩

theorem stageTrace_moveCompress (pz : String → Nat) (d : String)
    (fs : List String) : stageTrace (moveCompress pz d fs).1 = [] := by
  rw [stageTrace, List.filterMap_eq_nil]
  intro e he
  rcases moveCompress_mem pz d fs e he with ⟨f, rfl⟩ | ⟨f, rfl⟩ <;> rfl

theorem bundlePhase_parts (inp : Input) (env : Env) (P : IdParts)
    (ev : List Event) : (bundlePhase inp env P ev).parts = some P := by
  simp only [bundlePhase]
  repeat' split
  all_goals rfl

theorem stagesPhase_parts (inp : Input) (env : Env) (P : IdParts)
    (ev : List Event) : (stagesPhase inp env P ev).parts = some P := by
  unfold stagesPhase
  repeat' split
  all_goals first
    | rfl
    | exact bundlePhase_parts inp env P _

theorem run_parts_ok (inp : Input) (env : Env) (P : IdParts)
    (h : (run inp env).parts = some P) : deriveParts inp env = .ok P := by
  unfold run at h
  split at h
  · simp at h
  · rename_i P0 hP0
    split at h
    · simp at h
      subst h
      exact hP0
    · rw [stagesPhase_parts] at h
      simp at h
      subst h
      exact hP0

instance : IsTotal DT (fun a b : DT => a.key ≤ b.key) :=
  ⟨fun a b => Nat.le_total a.key b.key⟩

instance : IsTrans DT (fun a b : DT => a.key ≤ b.key) :=
  ⟨fun _ _ _ => Nat.le_trans⟩

theorem sorted_key_head_le (x : DT) (xs : List DT)
    (hs : List.Sorted (fun a b : DT => a.key ≤ b.key) (x :: xs)) :
    ∀ y ∈ x :: xs, x.key ≤ y.key := by
  intro y hy
  rcases List.mem_cons.mp hy with rfl | hy2
  · exact Nat.le_refl _
  · exact (List.sorted_cons.mp hs).1 y hy2

theorem sorted_key_le_getLast :
    ∀ (l : List DT) (hne : l ≠ []),
      List.Sorted (fun a b : DT => a.key ≤ b.key) l →
      ∀ y ∈ l, y.key ≤ (l.getLast hne).key
  | [], hne, _, _, _ => absurd rfl hne
  | [x], _, _, y, hy => by
    simp at hy
    subst hy
    simp [List.getLast]
  | x :: z :: zs, hne, hs, y, hy => by
    have htail := (List.sorted_cons.mp hs).2
    have hlast : (x :: z :: zs).getLast hne =
        (z :: zs).getLast (List.cons_ne_nil z zs) := List.getLast_cons _
    rcases List.mem_cons.mp hy with rfl | hy2
    · have hxz : y.key ≤ z.key := (List.sorted_cons.mp hs).1 z (by simp)
      have h2 := sorted_key_le_getLast (z :: zs) (List.cons_ne_nil z zs)
        htail z (by simp)
      rw [hlast]
      exact Nat.le_trans hxz h2
    · have h2 := sorted_key_le_getLast (z :: zs) (List.cons_ne_nil z zs)
        htail y hy2
      rw [hlast]
      exact h2

set_option maxHeartbeats 1000000 in
theorem deriveParts_ok_char (inp : Input) (env : Env) (P : IdParts)
    (h : deriveParts inp env = .ok P) :
    P.ifg_list = List.insertionSort strLe
        (env.filt_info.ifg_info.map Prod.fst) ∧
    P.platform = env.setOrder
        (platContents env.filt_info.ifg_info P.ifg_list) ∧
    P.hash = roiRefHash inp env P.track P.sensor P.platform P.ifg_list ∧
    P.id = "filtered-ifg-stack_" ++ P.sensor ++ "-TN" ++ toString P.track ++
        "-" ++ P.startdt.strftimeCompact ++ "Z-" ++ P.enddt.strftimeCompact ++
        "Z-" ++ P.hash ++ "-" ++ DATASET_VERSION ∧
    (∃ r0, List.lookup (P.ifg_list.headD "") env.filt_info.ifg_info = some r0 ∧
        P.sensor = r0.sensor ∧ P.sensor_name = r0.sensor_name ∧
        tnSearch r0.product = some P.track) ∧
    (∃ cs, List.insertionSort (fun a b : DT => a.key ≤ b.key)
        env.filt_info.center_lines_utc = P.startdt :: cs ∧
        P.enddt = (P.startdt :: cs).getLast (List.cons_ne_nil _ _)) := by
  simp only [deriveParts] at h
  split at h
  · exact absurd h (by simp)
  · split at h
    · exact absurd h (by simp)
    · rename_i r0 hlook
      split at h
      · exact absurd h (by simp)
      · rename_i track htrack
        split at h
        · exact absurd h (by simp)
        · rename_i c0 cs hsort
          obtain ⟨Pt, Ps, Psn, Pp, Pl, Psd, Ped, Ph, Pid⟩ := P
          simp only [Except.ok.injEq, IdParts.mk.injEq] at h
          obtain ⟨h1, h2, h3, h4, h5, h6, h7, h8, h9⟩ := h
          subst h1 h2 h3 h4 h5 h6 h7 h8 h9
          exact ⟨rfl, rfl, rfl, rfl, ⟨r0, hlook, rfl, rfl, htrack⟩,
            ⟨cs, hsort, rfl⟩⟩

theorem moveCompress_err (pz : String → Nat) (d : String) (fs : List String)
    (e : ErrKind) (he : (moveCompress pz d fs).2 = some e) :
    ∃ f s, e = .pigzFailure f s := by
  induction fs with
  | nil => simp [moveCompress] at he
  | cons f rest ih =>
    simp only [moveCompress] at he
    split at he
    · exact ih he
    · simp at he
      exact ⟨f, pz f, he.symm⟩

theorem bundlePhase_outcome (inp : Input) (env : Env) (P : IdParts)
    (ev : List Event) :
    (bundlePhase inp env P ev).outcome = .success ∨
    (bundlePhase inp env P ev).outcome = .error .indexError ∨
    ∃ f s, (bundlePhase inp env P ev).outcome = .error (.pigzFailure f s) := by
  simp only [bundlePhase]
  repeat' split
  · rename_i e he
    obtain ⟨f, s, rfl⟩ := moveCompress_err _ _ _ e he
    exact Or.inr (Or.inr ⟨f, s, rfl⟩)
  · exact Or.inr (Or.inl rfl)
  · exact Or.inr (Or.inl rfl)
  · exact Or.inl rfl

theorem bundlePhase_extends_ev (inp : Input) (env : Env) (P : IdParts)
    (ev : List Event) : ev <+: (bundlePhase inp env P ev).events := by
  simp only [bundlePhase]
  repeat' split
  all_goals
    simp only [List.append_assoc]
    exact List.prefix_append _ _

theorem stagesPhase_extends_ev (inp : Input) (env : Env) (P : IdParts)
    (ev : List Event) : ev <+: (stagesPhase inp env P ev).events := by
  unfold stagesPhase
  repeat' split
  all_goals
    first
      | (simp only [List.append_assoc]
         exact List.prefix_append _ _)
      | (refine List.IsPrefix.trans ?_ (bundlePhase_extends_ev inp env P _)
         simp only [List.append_assoc]
         exact List.prefix_append _ _)

theorem stagesPhase_outcome (inp : Input) (env : Env) (P : IdParts)
    (ev : List Event) :
    (stagesPhase inp env P ev).outcome = .success ∨
    (stagesPhase inp env P ev).outcome = .error .indexError ∨
    (∃ f s, (stagesPhase inp env P ev).outcome = .error (.pigzFailure f s)) ∨
    (∃ i s, (stagesPhase inp env P ev).outcome = .error (.stageFailure i s)) := by
  unfold stagesPhase
  repeat' split
  · rcases bundlePhase_outcome inp env P _ with h | h | ⟨f, s, h⟩
    · exact Or.inl h
    · exact Or.inr (Or.inl h)
    · exact Or.inr (Or.inr (Or.inl ⟨f, s, h⟩))
  all_goals exact Or.inr (Or.inr (Or.inr ⟨_, _, rfl⟩))

theorem stageTrace_bundlePhase (inp : Input) (env : Env) (P : IdParts)
    (ev : List Event) :
    stageTrace (bundlePhase inp env P ev).events = stageTrace ev := by
  simp only [bundlePhase]
  repeat' split
  all_goals
    simp [stageTrace_append, stageTrace_moveCompress, stageTrace,
      List.filterMap_append]
  all_goals
    intro a ha
    rcases moveCompress_mem _ _ _ a ha with ⟨f, rfl⟩ | ⟨f, rfl⟩ <;> rfl

theorem bundlePhase_makeDir (inp : Input) (env : Env) (P : IdParts)
    (ev : List Event) :
    Event.makeDir P.id ∈ (bundlePhase inp env P ev).events := by
  simp only [bundlePhase]
  repeat' split
  all_goals simp

theorem bundlePhase_success_char (inp : Input) (env : Env) (P : IdParts)
    (ev : List Event) (hs : (bundlePhase inp env P ev).outcome = .success) :
    (∀ p ∈ inp.products, Event.removeTree p ∈ (bundlePhase inp env P ev).events) ∧
    (∀ k ∈ P.ifg_list, Event.unlink k ∈ (bundlePhase inp env P ev).events) ∧
    (∃ t0 ts, env.times.map isoOfOrdinal = t0 :: ts ∧
      (bundlePhase inp env P ev).met = some (metOf inp env P (t0 :: ts) t0
        ((t0 :: ts).getLast (List.cons_ne_nil t0 ts))) ∧
      (bundlePhase inp env P ev).ds = some (dsOf inp env P t0
        ((t0 :: ts).getLast (List.cons_ne_nil t0 ts)))) := by
  simp only [bundlePhase] at *
  split at hs
  · simp at hs
  · split at hs
    · simp at hs
    · rename_i pngs hpng
      split at hs
      · simp at hs
      · rename_i t0 ts hts
        refine ⟨?_, ?_, t0, ts, hts, rfl, rfl⟩
        · intro p hp
          simp [hp]
        · intro k hk
          simp [hk]

theorem removeTree_not_mem_mc (pz : String → Nat) (d : String)
    (fs : List String) (p : String) :
    Event.removeTree p ∉ (moveCompress pz d fs).1 := by
  intro h
  rcases moveCompress_mem pz d fs _ h with ⟨f, hf⟩ | ⟨f, hf⟩ <;> simp at hf

theorem unlink_not_mem_mc (pz : String → Nat) (d : String)
    (fs : List String) (k : String) :
    Event.unlink k ∉ (moveCompress pz d fs).1 := by
  intro h
  rcases moveCompress_mem pz d fs _ h with ⟨f, hf⟩ | ⟨f, hf⟩ <;> simp at hf

theorem bundlePhase_removeTree (inp : Input) (env : Env) (P : IdParts)
    (ev : List Event) (p : String)
    (hne : (bundlePhase inp env P ev).outcome ≠ .success)
    (h : Event.removeTree p ∈ (bundlePhase inp env P ev).events) :
    Event.removeTree p ∈ ev := by
  simp only [bundlePhase] at hne h
  cases hmc : (moveCompress env.pigz P.id env.prod_files).2 with
  | some e =>
    simp only [hmc] at h
    simpa [removeTree_not_mem_mc] using h
  | none =>
    simp only [hmc] at hne h
    cases hpng : env.png_files with
    | nil =>
      simp only [hpng] at h
      simpa [removeTree_not_mem_mc] using h
    | cons p0 ps =>
      simp only [hpng] at hne h
      cases hts : List.map isoOfOrdinal env.times with
      | nil =>
        simp only [hts] at h
        simpa [removeTree_not_mem_mc] using h
      | cons t0 ts =>
        simp only [hts] at hne
        exact absurd rfl hne

theorem bundlePhase_unlink (inp : Input) (env : Env) (P : IdParts)
    (ev : List Event) (k : String)
    (hne : (bundlePhase inp env P ev).outcome ≠ .success)
    (h : Event.unlink k ∈ (bundlePhase inp env P ev).events) :
    Event.unlink k ∈ ev := by
  simp only [bundlePhase] at hne h
  cases hmc : (moveCompress env.pigz P.id env.prod_files).2 with
  | some e =>
    simp only [hmc] at h
    simpa [unlink_not_mem_mc] using h
  | none =>
    simp only [hmc] at hne h
    cases hpng : env.png_files with
    | nil =>
      simp only [hpng] at h
      simpa [unlink_not_mem_mc] using h
    | cons p0 ps =>
      simp only [hpng] at hne h
      cases hts : List.map isoOfOrdinal env.times with
      | nil =>
        simp only [hts] at h
        simpa [unlink_not_mem_mc] using h
      | cons t0 ts =>
        simp only [hts] at hne
        exact absurd rfl hne

theorem makeDir_not_mem_mc (pz : String → Nat) (d : String)
    (fs : List String) (x : String) :
    Event.makeDir x ∉ (moveCompress pz d fs).1 := by
  intro h
  rcases moveCompress_mem pz d fs _ h with ⟨f, hf⟩ | ⟨f, hf⟩ <;> simp at hf

theorem run_bundle_char (inp : Input) (env : Env)
    (hs : (run inp env).outcome = .success ∨ (run inp env).met.isSome ∨
      (run inp env).ds.isSome) :
    ∃ P ev2, deriveParts inp env = .ok P ∧ (∀ j, j < 4 → env.stage j = 0) ∧
      run inp env = bundlePhase inp env P ev2 := by
  unfold run at hs ⊢
  cases hd : deriveParts inp env with
  | error e => simp [hd] at hs
  | ok P =>
    simp only [hd] at hs ⊢
    by_cases hex : env.dataset_exists P.id
    · simp [hex] at hs
    · simp only [hex, Bool.false_eq_true, if_false] at hs ⊢
      unfold stagesPhase at hs ⊢
      by_cases h0 : env.stage 0 = 0 <;> simp only [h0, if_true, if_false] <;>
        simp only [h0, if_true, if_false] at hs
      · by_cases h1 : env.stage 1 = 0 <;> simp only [h1, if_true, if_false] <;>
          simp only [h1, if_true, if_false] at hs
        · by_cases h2 : env.stage 2 = 0 <;>
            simp only [h2, if_true, if_false] <;>
            simp only [h2, if_true, if_false] at hs
          · by_cases h3 : env.stage 3 = 0 <;>
              simp only [h3, if_true, if_false] <;>
              simp only [h3, if_true, if_false] at hs
            · refine ⟨P, _, rfl, ?_, rfl⟩
              intro j hj
              interval_cases j <;> assumption
            · simp at hs
          · simp at hs
        · simp at hs
      · simp at hs

theorem stagesPhase_no_cleanup (inp : Input) (env : Env) (P : IdParts)
    (ev : List Event)
    (hevR : ∀ p, Event.removeTree p ∉ ev)
    (hevU : ∀ k, Event.unlink k ∉ ev)
    (hne : (stagesPhase inp env P ev).outcome ≠ .success) :
    (∀ p, Event.removeTree p ∉ (stagesPhase inp env P ev).events) ∧
    (∀ k, Event.unlink k ∉ (stagesPhase inp env P ev).events) := by
  unfold stagesPhase at hne ⊢
  by_cases h0 : env.stage 0 = 0 <;> simp only [h0, if_true, if_false] at hne ⊢
  · by_cases h1 : env.stage 1 = 0 <;> simp only [h1, if_true, if_false] at hne ⊢
    · by_cases h2 : env.stage 2 = 0 <;>
        simp only [h2, if_true, if_false] at hne ⊢
      · by_cases h3 : env.stage 3 = 0 <;>
          simp only [h3, if_true, if_false] at hne ⊢
        · constructor
          · intro p hp
            have := bundlePhase_removeTree inp env P _ p hne hp
            simp [hevR p] at this
          · intro k hk
            have := bundlePhase_unlink inp env P _ k hne hk
            simp [hevU k] at this
        · constructor <;> intro x <;> simp [hevR x, hevU x]
      · constructor <;> intro x <;> simp [hevR x, hevU x]
    · constructor <;> intro x <;> simp [hevR x, hevU x]
  · constructor <;> intro x <;> simp [hevR x, hevU x]

theorem run_no_cleanup (inp : Input) (env : Env)
    (hne : (run inp env).outcome ≠ .success) :
    (∀ p, Event.removeTree p ∉ (run inp env).events) ∧
    (∀ k, Event.unlink k ∉ (run inp env).events) := by
  unfold run at hne ⊢
  cases hd : deriveParts inp env with
  | error e =>
    simp only [hd]
    constructor <;> intro x <;> simp
  | ok P =>
    simp only [hd] at hne ⊢
    by_cases hex : env.dataset_exists P.id
    · simp only [hex, if_true]
      constructor <;> intro x <;> simp
    · simp only [hex, Bool.false_eq_true, if_false] at hne ⊢
      exact stagesPhase_no_cleanup inp env P _
        (fun p => by simp [auxWriteEvents])
        (fun k => by simp [auxWriteEvents]) hne

theorem stagesPhase_no_makeDir (inp : Input) (env : Env) (P : IdParts)
    (ev : List Event)
    (hev : ∀ d, Event.makeDir d ∉ ev)
    (hf : ∃ i, i < 4 ∧ env.stage i ≠ 0) :
    ∀ d, Event.makeDir d ∉ (stagesPhase inp env P ev).events := by
  unfold stagesPhase
  by_cases h0 : env.stage 0 = 0 <;> simp only [h0, if_true, if_false]
  · by_cases h1 : env.stage 1 = 0 <;> simp only [h1, if_true, if_false]
    · by_cases h2 : env.stage 2 = 0 <;> simp only [h2, if_true, if_false]
      · by_cases h3 : env.stage 3 = 0 <;> simp only [h3, if_true, if_false]
        · exfalso
          obtain ⟨i, hi, hne⟩ := hf
          interval_cases i <;> contradiction
        · intro d; simp [hev d]
      · intro d; simp [hev d]
    · intro d; simp [hev d]
  · intro d; simp [hev d]

theorem run_stageTrace_cases (inp : Input) (env : Env) :
    stageTrace (run inp env).events = [] ∨
    (∃ i, i < 4 ∧ stageTrace (run inp env).events = List.range (i + 1) ∧
      (∀ j, j < i → env.stage j = 0) ∧ env.stage i ≠ 0 ∧
      (run inp env).outcome = .error (.stageFailure i (env.stage i))) ∨
    ((∀ j, j < 4 → env.stage j = 0) ∧
      stageTrace (run inp env).events = [0, 1, 2, 3]) := by
  unfold run
  cases hd : deriveParts inp env with
  | error e => exact Or.inl (by simp [stageTrace])
  | ok P =>
    by_cases hex : env.dataset_exists P.id
    · exact Or.inl (by simp [hex, stageTrace])
    · simp only [hex, Bool.false_eq_true, if_false]
      unfold stagesPhase
      by_cases h0 : env.stage 0 = 0 <;> simp only [h0, if_true, if_false]
      · by_cases h1 : env.stage 1 = 0 <;> simp only [h1, if_true, if_false]
        · by_cases h2 : env.stage 2 = 0 <;> simp only [h2, if_true, if_false]
          · by_cases h3 : env.stage 3 = 0 <;>
              simp only [h3, if_true, if_false]
            · refine Or.inr (Or.inr ⟨?_, ?_⟩)
              · intro j hj
                interval_cases j <;> assumption
              · rw [stageTrace_bundlePhase]
                simp [stageTrace, auxWriteEvents]
            · refine Or.inr (Or.inl ⟨3, by omega, ?_, ?_, h3, rfl⟩)
              · simp [stageTrace, auxWriteEvents, List.range_succ]
              · intro j hj
                interval_cases j <;> assumption
          · refine Or.inr (Or.inl ⟨2, by omega, ?_, ?_, h2, rfl⟩)
            · simp [stageTrace, auxWriteEvents, List.range_succ]
            · intro j hj
              interval_cases j <;> assumption
        · refine Or.inr (Or.inl ⟨1, by omega, ?_, ?_, h1, rfl⟩)
          · simp [stageTrace, auxWriteEvents, List.range_succ]
          · intro j hj
            interval_cases j <;> assumption
      · refine Or.inr (Or.inl ⟨0, by omega, ?_, ?_, h0, rfl⟩)
        · simp [stageTrace, auxWriteEvents, List.range_succ]
        · intro j hj
          omega

/-! ## Additional concrete fixtures -/

/-- The successful-run environment with the catalog reporting the identity
as already present. -/
def gateEnv : Env := { wEnv with dataset_exists := fun _ => true }

/-- An environment whose filter result contains zero records. -/
def emptyEnv : Env :=
  { wEnv with filt_info := { center_lines_utc := [], ifg_info := [] } }

/-- An environment in which the second pipeline stage exits with status 3. -/
def stageFailEnv : Env :=
  { wEnv with stage := fun i => if i = 1 then 3 else 0 }

/-- The identity parts derived on the baseline fixture run. -/
def wParts : IdParts :=
  { track := 42
  , sensor := "S1"
  , sensor_name := "Sentinel-1"
  , platform := ["Sentinel-1A", "Sentinel-1B"]
  , ifg_list := ["20200101_20200301", "20200215_20200401"]
  , startdt := ⟨2020, 1, 1, 0, 0, 0⟩
  , enddt := ⟨2020, 3, 1, 12, 0, 5⟩
  , hash := "e5f77"
  , id := "filtered-ifg-stack_S1-TN42-20200101T000000Z-20200301T120005Z-e5f77-v0.1" }

/-! ## Claims -/

/-- C1 (code bug): the spec requires the identity to be deterministic across
process restarts with the platform set incorporated in sorted order, but the
source joins `list(set(...))` unsorted (lines 161, 183): two runs identical
in every input — same records, same platform set, same sorted date-pair
keys — but observed under two different set-enumeration orders (as CPython
hash-seed randomization produces across restarts) yield different hash
components and hence different identity strings. -/
theorem c1_platform_order_nondeterminism :
    (run wInp wEnv).parts.map IdParts.platform =
      some ["Sentinel-1A", "Sentinel-1B"] ∧
    (run wInp wEnvRev).parts.map IdParts.platform =
      some ["Sentinel-1B", "Sentinel-1A"] ∧
    (run wInp wEnv).parts.map IdParts.id =
      some "filtered-ifg-stack_S1-TN42-20200101T000000Z-20200301T120005Z-e5f77-v0.1" ∧
    (run wInp wEnvRev).parts.map IdParts.id =
      some "filtered-ifg-stack_S1-TN42-20200101T000000Z-20200301T120005Z-e3e91-v0.1" ∧
    (run wInp wEnv).parts.map IdParts.id ≠
      (run wInp wEnvRev).parts.map IdParts.id := by
  set_option maxRecDepth 1000000 in
  exact ⟨by decide, by decide, by decide, by decide, by decide⟩

/-- C2 (amended): when the derived identity already exists in the catalog
the run executes zero stages, creates no bundle directory and exits via the
gate with status 0 — but it has already written the filter snapshot, so its
event trace is exactly the single `filt_info.pkl` write rather than zero
file writes. -/
theorem c2_idempotent_skip (inp : Input) (env : Env) (P : IdParts)
    (hp : (run inp env).parts = some P)
    (hex : env.dataset_exists P.id = true) :
    (run inp env).outcome = .exited0 ∧
    (run inp env).events = [Event.writeFile "filt_info.pkl"] := by
  have hd := run_parts_ok inp env P hp
  unfold run
  simp [hd, hex]

/-- C2 counterexample: a concrete gate-hit run exits 0 with zero stages, but
the claim's "writes zero files" is false — `filt_info.pkl` has been
written. -/
theorem c2_counterexample :
    (run wInp gateEnv).parts.map IdParts.id =
      some "filtered-ifg-stack_S1-TN42-20200101T000000Z-20200301T120005Z-e5f77-v0.1" ∧
    gateEnv.dataset_exists
      "filtered-ifg-stack_S1-TN42-20200101T000000Z-20200301T120005Z-e5f77-v0.1" = true ∧
    (run wInp gateEnv).outcome = .exited0 ∧
    Event.writeFile "filt_info.pkl" ∈ (run wInp gateEnv).events := by
  set_option maxRecDepth 1000000 in
  exact ⟨by decide, rfl, by decide, by decide⟩

/-- C2 witness: the amended skip theorem applied to the concrete gate-hit
fixture. -/
theorem c2_witness :
    (run wInp gateEnv).parts = some wParts ∧
    gateEnv.dataset_exists wParts.id = true ∧
    ((run wInp gateEnv).outcome = .exited0 ∧
      (run wInp gateEnv).events = [Event.writeFile "filt_info.pkl"]) := by
  set_option maxRecDepth 1000000 in
  exact ⟨by decide, by decide,
    c2_idempotent_skip wInp gateEnv wParts (by decide) (by decide)⟩

/-- The identity format the spec scenario claims, transcribed from the
spec's words (no bundle-type prefix), for comparison with the code's
`ID_TMPL`. -/
def specIdForm (sensor : String) (track : Nat)
    (startdt enddt hsh version : String) : String :=
  sensor ++ "-TN" ++ toString track ++ "-" ++ startdt ++ "Z-" ++ enddt ++
    "Z-" ++ hsh ++ "-" ++ version

/-- C3 counterexample: on a concrete successful run the produced identity is
`filtered-ifg-stack_S1-TN42-...`, not the claimed bare
`S1-TN42-...` form, even with every component equal. -/
theorem c3_counterexample :
    (run wInp wEnv).outcome = .success ∧
    (run wInp wEnv).parts.map IdParts.id =
      some "filtered-ifg-stack_S1-TN42-20200101T000000Z-20200301T120005Z-e5f77-v0.1" ∧
    specIdForm "S1" 42 "20200101T000000" "20200301T120005" "e5f77" "v0.1" =
      "S1-TN42-20200101T000000Z-20200301T120005Z-e5f77-v0.1" ∧
    (run wInp wEnv).parts.map IdParts.id ≠
      some (specIdForm "S1" 42 "20200101T000000" "20200301T120005" "e5f77" "v0.1") := by
  set_option maxRecDepth 1000000 in
  exact ⟨by decide, by decide, by decide, by decide⟩

/-- C3 (amended): on every successful run the identity has exactly the form
`filtered-ifg-stack_{sensor}-TN{track}-{start}Z-{end}Z-{hash}-{version}`
where start/end are the minimum and maximum center-line acquisition times
formatted to second precision, and the bundle directory is created under
exactly that name. -/
theorem c3_identity_form (inp : Input) (env : Env) (P : IdParts)
    (hp : (run inp env).parts = some P)
    (hs : (run inp env).outcome = .success) :
    P.id = "filtered-ifg-stack_" ++ P.sensor ++ "-TN" ++ toString P.track ++
      "-" ++ P.startdt.strftimeCompact ++ "Z-" ++ P.enddt.strftimeCompact ++
      "Z-" ++ P.hash ++ "-" ++ DATASET_VERSION ∧
    P.startdt ∈ env.filt_info.center_lines_utc ∧
    P.enddt ∈ env.filt_info.center_lines_utc ∧
    (∀ t ∈ env.filt_info.center_lines_utc,
      P.startdt.key ≤ t.key ∧ t.key ≤ P.enddt.key) ∧
    Event.makeDir P.id ∈ (run inp env).events := by
  have hd := run_parts_ok inp env P hp
  obtain ⟨-, -, -, hid, -, cs, hsort, hlast⟩ := deriveParts_ok_char inp env P hd
  have hperm := List.perm_insertionSort (fun a b : DT => a.key ≤ b.key)
    env.filt_info.center_lines_utc
  have hsorted := List.sorted_insertionSort (fun a b : DT => a.key ≤ b.key)
    env.filt_info.center_lines_utc
  rw [hsort] at hperm hsorted
  refine ⟨hid, ?_, ?_, ?_, ?_⟩
  · exact hperm.mem_iff.mp (by simp)
  · rw [hlast]
    exact hperm.mem_iff.mp (List.getLast_mem _)
  · intro t ht
    have ht2 : t ∈ P.startdt :: cs := hperm.mem_iff.mpr ht
    refine ⟨sorted_key_head_le _ _ hsorted t ht2, ?_⟩
    rw [hlast]
    exact sorted_key_le_getLast _ (List.cons_ne_nil _ _) hsorted t ht2
  · obtain ⟨P2, ev2, hd2, -, hrun⟩ := run_bundle_char inp env (Or.inl hs)
    rw [hd] at hd2
    simp only [Except.ok.injEq] at hd2
    subst hd2
    rw [hrun]
    exact bundlePhase_makeDir inp env P ev2

/-- C3 witness: the amended identity-form theorem applied to the concrete
successful fixture run. -/
theorem c3_witness :
    (run wInp wEnv).parts = some wParts ∧
    (run wInp wEnv).outcome = .success ∧
    (wParts.id = "filtered-ifg-stack_" ++ wParts.sensor ++ "-TN" ++
        toString wParts.track ++ "-" ++ wParts.startdt.strftimeCompact ++
        "Z-" ++ wParts.enddt.strftimeCompact ++ "Z-" ++ wParts.hash ++ "-" ++
        DATASET_VERSION ∧
      wParts.startdt ∈ wEnv.filt_info.center_lines_utc ∧
      wParts.enddt ∈ wEnv.filt_info.center_lines_utc ∧
      (∀ t ∈ wEnv.filt_info.center_lines_utc,
        wParts.startdt.key ≤ t.key ∧ t.key ≤ wParts.enddt.key) ∧
      Event.makeDir wParts.id ∈ (run wInp wEnv).events) := by
  set_option maxRecDepth 1000000 in
  exact ⟨by decide, by decide,
    c3_identity_form wInp wEnv wParts (by decide) (by decide)⟩

/-- C4: a FilteredResult with zero records terminates the run with the
all-filtered-out error immediately after the filter snapshot dump: no stage
is invoked, no identity is derived, and the only side effect is the
`filt_info.pkl` write. -/
theorem c4_empty_filter_rejection (inp : Input) (env : Env)
    (h : env.filt_info.ifg_info = []) :
    (run inp env).outcome = .error .allFilteredOut ∧
    (run inp env).events = [Event.writeFile "filt_info.pkl"] ∧
    (run inp env).parts = none := by
  have hd : deriveParts inp env = .error .allFilteredOut := by
    unfold deriveParts
    simp [h]
  unfold run
  simp [hd]

/-- C4 witness: the empty-filter theorem applied to the concrete
zero-record fixture. -/
theorem c4_witness :
    emptyEnv.filt_info.ifg_info = [] ∧
    ((run wInp emptyEnv).outcome = .error .allFilteredOut ∧
      (run wInp emptyEnv).events = [Event.writeFile "filt_info.pkl"] ∧
      (run wInp emptyEnv).parts = none) :=
  ⟨rfl, c4_empty_filter_rejection wInp emptyEnv rfl⟩

/-- C6: the hash component of the identity is the first five hex characters
of the MD5 digest over the concatenation, in the fixed source order, of
envelope, reference point, reference window, coherence threshold, range and
azimuth pixel sizes, incidence angle, the two deramp flags, filter flag,
track, sensor, the space-joined platform list and the space-joined sorted
date-pair key list. -/
theorem c6_hash_composition (inp : Input) (env : Env) (P : IdParts)
    (hp : (run inp env).parts = some P) :
    P.hash = takeChars (md5hex (utf8Bytes (
      (envelopeOf inp env).2.2.1 ++ " " ++ (envelopeOf inp env).2.2.2 ++
        " " ++ (envelopeOf inp env).1 ++ " " ++ (envelopeOf inp env).2.1 ++
      (inp.ref_point.1 ++ " " ++ inp.ref_point.2) ++
      (toString inp.ref_box_num_pixels.1 ++ " " ++
        toString inp.ref_box_num_pixels.2) ++
      inp.coherence_threshold ++
      inp.range_pixel_size ++
      inp.azimuth_pixel_size ++
      inp.inc ++
      pyBool inp.netramp ++
      pyBool inp.gpsramp ++
      inp.filt ++
      toString P.track ++
      P.sensor ++
      String.intercalate " " P.platform ++
      String.intercalate " " P.ifg_list))) 5 ∧
    P.ifg_list = List.insertionSort strLe
      (env.filt_info.ifg_info.map Prod.fst) ∧
    P.platform = env.setOrder
      (platContents env.filt_info.ifg_info P.ifg_list) := by
  have hd := run_parts_ok inp env P hp
  obtain ⟨h1, h2, h3, -, -, -⟩ := deriveParts_ok_char inp env P hd
  refine ⟨?_, h1, h2⟩
  rw [h3]
  rfl

/-- C6 witness: the hash-composition theorem applied to the concrete
fixture run (whose hash prefix is `e5f77`). -/
theorem c6_witness :
    (run wInp wEnv).parts = some wParts ∧
    (wParts.hash = takeChars (md5hex (utf8Bytes (
      (envelopeOf wInp wEnv).2.2.1 ++ " " ++ (envelopeOf wInp wEnv).2.2.2 ++
        " " ++ (envelopeOf wInp wEnv).1 ++ " " ++ (envelopeOf wInp wEnv).2.1 ++
      (wInp.ref_point.1 ++ " " ++ wInp.ref_point.2) ++
      (toString wInp.ref_box_num_pixels.1 ++ " " ++
        toString wInp.ref_box_num_pixels.2) ++
      wInp.coherence_threshold ++
      wInp.range_pixel_size ++
      wInp.azimuth_pixel_size ++
      wInp.inc ++
      pyBool wInp.netramp ++
      pyBool wInp.gpsramp ++
      wInp.filt ++
      toString wParts.track ++
      wParts.sensor ++
      String.intercalate " " wParts.platform ++
      String.intercalate " " wParts.ifg_list))) 5 ∧
    wParts.ifg_list = List.insertionSort strLe
      (wEnv.filt_info.ifg_info.map Prod.fst) ∧
    wParts.platform = wEnv.setOrder
      (platContents wEnv.filt_info.ifg_info wParts.ifg_list)) := by
  set_option maxRecDepth 1000000 in
  exact ⟨by decide, c6_hash_composition wInp wEnv wParts (by decide)⟩

/-- C10: every modelled run's first side effect is the unconditional
`filt_info.pkl` write, performed before the empty-record check and before
the idempotency gate; a run that ends all-filtered-out or is skipped as
already existing has exactly that single write as its whole trace, leaving
the snapshot behind. -/
theorem c10_filter_snapshot_always_written (inp : Input) (env : Env) :
    (run inp env).events.head? = some (Event.writeFile "filt_info.pkl") ∧
    (((run inp env).outcome = .error .allFilteredOut ∨
        (run inp env).outcome = .exited0) →
      (run inp env).events = [Event.writeFile "filt_info.pkl"]) := by
  unfold run
  cases hd : deriveParts inp env with
  | error e => exact ⟨rfl, fun _ => rfl⟩
  | ok P =>
    by_cases hex : env.dataset_exists P.id
    · simp [hex]
    · simp only [hex, Bool.false_eq_true, if_false]
      constructor
      · obtain ⟨t, ht⟩ := stagesPhase_extends_ev inp env P
          ([Event.writeFile "filt_info.pkl"] ++ auxWriteEvents)
        rw [← ht]
        rfl
      · intro hout
        exfalso
        rcases stagesPhase_outcome inp env P
            ([Event.writeFile "filt_info.pkl"] ++ auxWriteEvents) with
          h | h | ⟨f, s, h⟩ | ⟨i, s, h⟩ <;>
          rcases hout with h2 | h2 <;> rw [h] at h2 <;> simp at h2

/-- C5: if any of the four stages exits non-zero, the run creates no
directory (in particular none named after the would-be identity), deletes
no source input product, and removes no date-pair symlink — it aborts
before bundle assembly begins. -/
theorem c5_stage_failure_no_bundle (inp : Input) (env : Env)
    (hf : ∃ i, i < 4 ∧ env.stage i ≠ 0) :
    (∀ d, Event.makeDir d ∉ (run inp env).events) ∧
    (∀ p, Event.removeTree p ∉ (run inp env).events) ∧
    (∀ k, Event.unlink k ∉ (run inp env).events) := by
  have hne : (run inp env).outcome ≠ .success := by
    intro hs
    obtain ⟨P, ev2, -, hz, -⟩ := run_bundle_char inp env (Or.inl hs)
    obtain ⟨i, hi, hnz⟩ := hf
    exact hnz (hz i hi)
  have hclean := run_no_cleanup inp env hne
  refine ⟨?_, hclean.1, hclean.2⟩
  unfold run
  cases hd : deriveParts inp env with
  | error e =>
    intro d
    simp
  | ok P =>
    by_cases hex : env.dataset_exists P.id
    · simp only [hex, if_true]
      intro d
      simp
    · simp only [hex, Bool.false_eq_true, if_false]
      exact stagesPhase_no_makeDir inp env P _
        (fun d => by simp [auxWriteEvents]) hf

/-- C5 witness: the stage-failure theorem applied to the fixture whose
second stage exits with status 3. -/
theorem c5_witness :
    (1 < 4 ∧ stageFailEnv.stage 1 ≠ 0) ∧
    Event.makeDir
      "filtered-ifg-stack_S1-TN42-20200101T000000Z-20200301T120005Z-e5f77-v0.1" ∉
      (run wInp stageFailEnv).events ∧
    Event.removeTree "S1-IFG_TN42_pairA-product" ∉
      (run wInp stageFailEnv).events ∧
    Event.unlink "20200101_20200301" ∉ (run wInp stageFailEnv).events :=
  ⟨⟨by decide, by decide⟩,
   (c5_stage_failure_no_bundle wInp stageFailEnv
     ⟨1, by decide, by decide⟩).1 _,
   (c5_stage_failure_no_bundle wInp stageFailEnv
     ⟨1, by decide, by decide⟩).2.1 _,
   (c5_stage_failure_no_bundle wInp stageFailEnv
     ⟨1, by decide, by decide⟩).2.2 _⟩

/-- C7: cleanup on success only — a successful run removes every input
product reference and every date-pair-keyed symlink, and a run that does
not succeed removes none of them. -/
theorem c7_cleanup_on_success_only (inp : Input) (env : Env) :
    ((run inp env).outcome = .success →
      (∀ p ∈ inp.products, Event.removeTree p ∈ (run inp env).events) ∧
      (∀ kv ∈ env.filt_info.ifg_info,
        Event.unlink kv.1 ∈ (run inp env).events)) ∧
    ((run inp env).outcome ≠ .success →
      (∀ p, Event.removeTree p ∉ (run inp env).events) ∧
      (∀ k, Event.unlink k ∉ (run inp env).events)) := by
  constructor
  · intro hs
    obtain ⟨P, ev2, hd, -, hrun⟩ := run_bundle_char inp env (Or.inl hs)
    have hbs : (bundlePhase inp env P ev2).outcome = .success := by
      rw [← hrun]
      exact hs
    obtain ⟨hrm, hul, -⟩ := bundlePhase_success_char inp env P ev2 hbs
    obtain ⟨hlist, -, -, -, -, -⟩ := deriveParts_ok_char inp env P hd
    constructor
    · intro p hp
      rw [hrun]
      exact hrm p hp
    · intro kv hkv
      rw [hrun]
      apply hul
      rw [hlist]
      exact (List.perm_insertionSort strLe _).mem_iff.mpr
        (List.mem_map_of_mem Prod.fst hkv)
  · exact run_no_cleanup inp env

/-- C7 witness: on the concrete successful fixture run both input products
are removed and both date-pair symlinks are unlinked. -/
theorem c7_witness :
    (run wInp wEnv).outcome = .success ∧
    Event.removeTree "S1-IFG_TN42_pairA-product" ∈ (run wInp wEnv).events ∧
    Event.removeTree "S1-IFG_TN42_pairB-product" ∈ (run wInp wEnv).events ∧
    Event.unlink "20200101_20200301" ∈ (run wInp wEnv).events ∧
    Event.unlink "20200215_20200401" ∈ (run wInp wEnv).events := by
  set_option maxRecDepth 1000000 in
  refine ⟨by decide, ?_, ?_, ?_, ?_⟩
  · exact ((c7_cleanup_on_success_only wInp wEnv).1 (by decide)).1 _
      (by decide)
  · exact ((c7_cleanup_on_success_only wInp wEnv).1 (by decide)).1 _
      (by decide)
  · exact ((c7_cleanup_on_success_only wInp wEnv).1 (by decide)).2
      ("20200101_20200301", wRecA) (by decide)
  · exact ((c7_cleanup_on_success_only wInp wEnv).1 (by decide)).2
      ("20200215_20200401", wRecB) (by decide)

/-- C8: the stage invocations of every run form a prefix of the fixed order
0,1,2,3 (so no stage repeats, none is reordered); every invoked stage's
predecessor was invoked and completed with status 0 (no skip-ahead past a
failure); a non-zero status of an invoked stage is immediately fatal — the
outcome is that stage's failure and no later stage was invoked; and a run
that enters the pipeline with all four stages succeeding invokes exactly
the four stages in order. -/
theorem c8_stage_pipeline (inp : Input) (env : Env) :
    stageTrace (run inp env).events <+: [0, 1, 2, 3] ∧
    (∀ i, (i + 1) ∈ stageTrace (run inp env).events →
      i ∈ stageTrace (run inp env).events ∧ env.stage i = 0) ∧
    (∀ i, i ∈ stageTrace (run inp env).events → env.stage i ≠ 0 →
      (run inp env).outcome = .error (.stageFailure i (env.stage i)) ∧
      stageTrace (run inp env).events = List.range (i + 1)) ∧
    ((stageTrace (run inp env).events ≠ [] ∧
        (∀ j, j < 4 → env.stage j = 0)) →
      stageTrace (run inp env).events = [0, 1, 2, 3]) := by
  rcases run_stageTrace_cases inp env with
    h | ⟨i, hi4, ht, hprev, hnz, hout⟩ | ⟨hz, ht⟩
  · refine ⟨?_, ?_, ?_, ?_⟩ <;> rw [h]
    · exact List.nil_prefix
    · simp
    · simp
    · simp
  · refine ⟨?_, ?_, ?_, ?_⟩
    · rw [ht]
      interval_cases i <;> decide
    · intro j hj
      rw [ht] at hj ⊢
      rw [List.mem_range] at hj
      exact ⟨List.mem_range.mpr (by omega), hprev j (by omega)⟩
    · intro j hj hjnz
      rw [ht] at hj
      rw [List.mem_range] at hj
      rcases Nat.lt_or_ge j i with hji | hji
      · exact absurd (hprev j hji) hjnz
      · have hje : j = i := by omega
        subst hje
        exact ⟨hout, ht⟩
    · rintro ⟨-, hzz⟩
      exact absurd (hzz i hi4) hnz
  · refine ⟨?_, ?_, ?_, ?_⟩
    · rw [ht]
    · intro i hi
      rw [ht] at hi ⊢
      simp at hi
      constructor
      · simp
        omega
      · exact hz i (by omega)
    · intro i hi hinz
      rw [ht] at hi
      simp at hi
      exact absurd (hz i (by omega)) hinz
    · rintro ⟨-, -⟩
      exact ht

/-- C9: the metadata record of every successful run carries the closed
5-point lat/lon bounding polygon (first point repeated last), `ifg_count`
equal to the number of filtered records, the product names listed by sorted
date-pair key, and a `timesteps` list whose length equals the number of
time entries read from the processed stack; the dataset descriptor carries
the bounding box in lon/lat order. -/
theorem c9_metadata_record (inp : Input) (env : Env) (m : Met) (d : DS)
    (hs : (run inp env).outcome = .success)
    (hm : (run inp env).met = some m)
    (hd : (run inp env).ds = some d) :
    m.bbox = [((envelopeOf inp env).2.1, (envelopeOf inp env).2.2.2),
              ((envelopeOf inp env).2.1, (envelopeOf inp env).2.2.1),
              ((envelopeOf inp env).1, (envelopeOf inp env).2.2.1),
              ((envelopeOf inp env).1, (envelopeOf inp env).2.2.2),
              ((envelopeOf inp env).2.1, (envelopeOf inp env).2.2.2)] ∧
    m.bbox.length = 5 ∧
    m.bbox.head? = m.bbox.getLast? ∧
    m.ifg_count = env.filt_info.ifg_info.length ∧
    m.ifgs = (List.insertionSort strLe
      (env.filt_info.ifg_info.map Prod.fst)).filterMap
      (fun k => (List.lookup k env.filt_info.ifg_info).map
        IfgRecord.product) ∧
    m.timesteps.length = env.times.length ∧
    d.bbox = [((envelopeOf inp env).2.2.2, (envelopeOf inp env).2.1),
              ((envelopeOf inp env).2.2.2, (envelopeOf inp env).1),
              ((envelopeOf inp env).2.2.1, (envelopeOf inp env).1),
              ((envelopeOf inp env).2.2.1, (envelopeOf inp env).2.1),
              ((envelopeOf inp env).2.2.2, (envelopeOf inp env).2.1)] := by
  obtain ⟨P, ev2, hdp, -, hrun⟩ := run_bundle_char inp env (Or.inl hs)
  have hbs : (bundlePhase inp env P ev2).outcome = .success := by
    rw [← hrun]
    exact hs
  obtain ⟨-, -, t0, ts, hts, hmet, hds⟩ :=
    bundlePhase_success_char inp env P ev2 hbs
  rw [hrun] at hm hd
  rw [hmet] at hm
  rw [hds] at hd
  simp only [Option.some.injEq] at hm hd
  subst hm
  subst hd
  refine ⟨rfl, rfl, rfl, rfl, rfl, ?_, rfl⟩
  show (t0 :: ts).length = env.times.length
  rw [← hts]
  exact List.length_map _ _

/-- The metadata record written by the baseline fixture run. -/
def wMet : Met :=
  { bbox := [("35.2", "-117.5"), ("35.2", "-118.9"), ("34.1", "-118.9"),
             ("34.1", "-117.5"), ("35.2", "-117.5")]
  , dataset_type := "ifg-stack"
  , product_type := "ifg-stack"
  , reference := false
  , sensing_time_initial := "2019-01-01T00:00:00"
  , sensing_time_final := "2019-04-02T00:00:00"
  , sensor := "Sentinel-1"
  , platform := ["Sentinel-1A", "Sentinel-1B"]
  , spacecraftName := ["Sentinel-1A", "Sentinel-1B"]
  , tags := ["urgent-response"]
  , trackNumber := 42
  , swath := [1, 2]
  , ifg_count := 2
  , ifgs := ["S1-IFG_TN42_pairA-product", "S1-IFG_TN42_pairB-product"]
  , timestep_count := 2
  , timesteps := ["2019-01-01T00:00:00", "2019-04-02T00:00:00"] }

/-- The dataset descriptor written by the baseline fixture run. -/
def wDS : DS :=
  { id := "filtered-ifg-stack_S1-TN42-20200101T000000Z-20200301T120005Z-e5f77-v0.1"
  , bbox := [("-117.5", "35.2"), ("-117.5", "34.1"), ("-118.9", "34.1"),
             ("-118.9", "35.2"), ("-117.5", "35.2")]
  , starttime := "2019-01-01T00:00:00"
  , endtime := "2019-04-02T00:00:00"
  , version := "v0.1" }

/-- C9 witness: the metadata theorem applied to the concrete successful
fixture run and the metadata it actually wrote. -/
theorem c9_witness :
    (run wInp wEnv).outcome = .success ∧
    (run wInp wEnv).met = some wMet ∧
    (run wInp wEnv).ds = some wDS ∧
    (wMet.bbox = [((envelopeOf wInp wEnv).2.1, (envelopeOf wInp wEnv).2.2.2),
        ((envelopeOf wInp wEnv).2.1, (envelopeOf wInp wEnv).2.2.1),
        ((envelopeOf wInp wEnv).1, (envelopeOf wInp wEnv).2.2.1),
        ((envelopeOf wInp wEnv).1, (envelopeOf wInp wEnv).2.2.2),
        ((envelopeOf wInp wEnv).2.1, (envelopeOf wInp wEnv).2.2.2)] ∧
      wMet.bbox.length = 5 ∧
      wMet.bbox.head? = wMet.bbox.getLast? ∧
      wMet.ifg_count = wEnv.filt_info.ifg_info.length ∧
      wMet.ifgs = (List.insertionSort strLe
        (wEnv.filt_info.ifg_info.map Prod.fst)).filterMap
        (fun k => (List.lookup k wEnv.filt_info.ifg_info).map
          IfgRecord.product) ∧
      wMet.timesteps.length = wEnv.times.length ∧
      wDS.bbox = [((envelopeOf wInp wEnv).2.2.2, (envelopeOf wInp wEnv).2.1),
        ((envelopeOf wInp wEnv).2.2.2, (envelopeOf wInp wEnv).1),
        ((envelopeOf wInp wEnv).2.2.1, (envelopeOf wInp wEnv).1),
        ((envelopeOf wInp wEnv).2.2.1, (envelopeOf wInp wEnv).2.1),
        ((envelopeOf wInp wEnv).2.2.2, (envelopeOf wInp wEnv).2.1)]) := by
  set_option maxRecDepth 1000000 in
  exact ⟨by decide, by decide, by decide,
    c9_metadata_record wInp wEnv wMet wDS (by decide) (by decide)
      (by decide)⟩

end IfgStack